import Mathlib

/-!
Verification of the topic-monitor engine (scripts/monitor.py, scripts/config.py).

The Python source is shallowly embedded: dictionaries become structures with
optional fields (mirroring dict.get defaults), in-place mutation becomes
explicit state passing, raised exceptions become Except/abort results, file
writes become updates to an explicit World record, and the clock is an
injected parameter (the spec lists the time source as an injected leaf
component).  Machine integers do not occur in the source (Python bignums);
timestamps are modelled at microsecond resolution like Python datetimes.
-/

namespace TopicMonitor

/-! ### MD5 (hashlib.md5), operating on byte lists, 32-bit words as Nat mod 2^32 -/

def M32 : Nat := 4294967296

def rotl32 (x n : Nat) : Nat := ((x <<< n) % M32) ||| (x >>> (32 - n))

def not32 (x : Nat) : Nat := x ^^^ 4294967295

def md5K : List Nat :=
  [0xd76aa478, 0xe8c7b756, 0x242070db, 0xc1bdceee,
   0xf57c0faf, 0x4787c62a, 0xa8304613, 0xfd469501,
   0x698098d8, 0x8b44f7af, 0xffff5bb1, 0x895cd7be,
   0x6b901122, 0xfd987193, 0xa679438e, 0x49b40821,
   0xf61e2562, 0xc040b340, 0x265e5a51, 0xe9b6c7aa,
   0xd62f105d, 0x02441453, 0xd8a1e681, 0xe7d3fbc8,
   0x21e1cde6, 0xc33707d6, 0xf4d50d87, 0x455a14ed,
   0xa9e3e905, 0xfcefa3f8, 0x676f02d9, 0x8d2a4c8a,
   0xfffa3942, 0x8771f681, 0x6d9d6122, 0xfde5380c,
   0xa4beea44, 0x4bdecfa9, 0xf6bb4b60, 0xbebfbc70,
   0x289b7ec6, 0xeaa127fa, 0xd4ef3085, 0x04881d05,
   0xd9d4d039, 0xe6db99e5, 0x1fa27cf8, 0xc4ac5665,
   0xf4292244, 0x432aff97, 0xab9423a7, 0xfc93a039,
   0x655b59c3, 0x8f0ccc92, 0xffeff47d, 0x85845dd1,
   0x6fa87e4f, 0xfe2ce6e0, 0xa3014314, 0x4e0811a1,
   0xf7537e82, 0xbd3af235, 0x2ad7d2bb, 0xeb86d391]

def md5S : List Nat :=
  [7, 12, 17, 22, 7, 12, 17, 22, 7, 12, 17, 22, 7, 12, 17, 22,
   5, 9, 14, 20, 5, 9, 14, 20, 5, 9, 14, 20, 5, 9, 14, 20,
   4, 11, 16, 23, 4, 11, 16, 23, 4, 11, 16, 23, 4, 11, 16, 23,
   6, 10, 15, 21, 6, 10, 15, 21, 6, 10, 15, 21, 6, 10, 15, 21]

def md5F (i b c d : Nat) : Nat :=
  if i < 16 then (b &&& c) ||| (not32 b &&& d)
  else if i < 32 then (d &&& b) ||| (not32 d &&& c)
  else if i < 48 then b ^^^ c ^^^ d
  else c ^^^ (b ||| not32 d)

def md5G (i : Nat) : Nat :=
  if i < 16 then i
  else if i < 32 then (5 * i + 1) % 16
  else if i < 48 then (3 * i + 5) % 16
  else (7 * i) % 16

def word32At (chunk : List Nat) (g : Nat) : Nat :=
  chunk.getD (4 * g) 0 + 256 * chunk.getD (4 * g + 1) 0 +
    65536 * chunk.getD (4 * g + 2) 0 + 16777216 * chunk.getD (4 * g + 3) 0

def md5Step (chunk : List Nat) (st : Nat × Nat × Nat × Nat) (i : Nat) :
    Nat × Nat × Nat × Nat :=
  let (a, b, c, d) := st
  let f := (md5F i b c d + a + md5K.getD i 0 + word32At chunk (md5G i)) % M32
  (d, (b + rotl32 f (md5S.getD i 0)) % M32, b, c)

def md5Chunk (h : Nat × Nat × Nat × Nat) (chunk : List Nat) : Nat × Nat × Nat × Nat :=
  let (a, b, c, d) := (List.range 64).foldl (md5Step chunk) h
  ((h.1 + a) % M32, (h.2.1 + b) % M32, (h.2.2.1 + c) % M32, (h.2.2.2 + d) % M32)

def md5Pad (msg : List Nat) : List Nat :=
  let len := msg.length
  let zeros := (56 + 64 - (len + 1) % 64) % 64
  msg ++ [0x80] ++ List.replicate zeros 0 ++
    (List.range 8).map (fun i => (len * 8) >>> (8 * i) % 256)

def chunks64Go : Nat → List Nat → List (List Nat)
  | _, [] => []
  | 0, _ :: _ => []
  | Nat.succ fuel, x :: xs => (x :: xs).take 64 :: chunks64Go fuel ((x :: xs).drop 64)

def chunks64 (l : List Nat) : List (List Nat) := chunks64Go l.length l

def hexDigit (n : Nat) : Char :=
  if n < 10 then Char.ofNat (48 + n) else Char.ofNat (87 + n)

def byteHex (b : Nat) : List Char := [hexDigit (b / 16), hexDigit (b % 16)]

def word32HexLE (w : Nat) : List Char :=
  byteHex (w % 256) ++ byteHex (w / 256 % 256) ++
    byteHex (w / 65536 % 256) ++ byteHex (w / 16777216 % 256)

def md5Hex (msg : List Nat) : String :=
  let (a, b, c, d) :=
    (chunks64 (md5Pad msg)).foldl md5Chunk
      (0x67452301, 0xefcdab89, 0x98badcfe, 0x10325476)
  String.mk (word32HexLE a ++ word32HexLE b ++ word32HexLE c ++ word32HexLE d)

/-! ### UTF-8 encoding of a string (url.encode() in Python) -/

def utf8Char (c : Char) : List Nat :=
  let n := c.toNat
  if n < 0x80 then [n]
  else if n < 0x800 then [0xc0 + n / 64, 0x80 + n % 64]
  else if n < 0x10000 then [0xe0 + n / 4096, 0x80 + n / 64 % 64, 0x80 + n % 64]
  else [0xf0 + n / 262144, 0x80 + n / 4096 % 64, 0x80 + n / 64 % 64, 0x80 + n % 64]

def utf8Encode (s : String) : List Nat :=
  s.data.foldr (fun c acc => utf8Char c ++ acc) []

/-- Embeds hash_url (monitor.py): md5 hex digest of the encoded url. -/
def hash_url (url : String) : String := md5Hex (utf8Encode url)

/-! ### Python datetime model

A datetime value is the field tuple Python stores; differences and order
comparisons go through toMicros (microseconds since the calendar epoch,
computed with the toordinal algorithm of the datetime module, which makes
toMicros an order embedding on valid datetimes).  datetime.now() is an
injected parameter everywhere the source calls it. -/

structure PyDateTime where
  year : Nat
  month : Nat
  day : Nat
  hour : Nat
  minute : Nat
  second : Nat
  usec : Nat
deriving DecidableEq, Repr

def isLeap (y : Nat) : Bool := y % 4 == 0 && (y % 100 != 0 || y % 400 == 0)

def daysInMonth (y m : Nat) : Nat :=
  if m = 2 then (if isLeap y then 29 else 28)
  else if m = 4 ∨ m = 6 ∨ m = 9 ∨ m = 11 then 30
  else 31

def ValidRanges (y mo da h mi se us : Nat) : Prop :=
  1 ≤ y ∧ y ≤ 9999 ∧ 1 ≤ mo ∧ mo ≤ 12 ∧ 1 ≤ da ∧ da ≤ daysInMonth y mo ∧
    h ≤ 23 ∧ mi ≤ 59 ∧ se ≤ 59 ∧ us ≤ 999999

instance (y mo da h mi se us : Nat) : Decidable (ValidRanges y mo da h mi se us) := by
  unfold ValidRanges; infer_instance

def PyDateTime.Valid (dt : PyDateTime) : Prop :=
  ValidRanges dt.year dt.month dt.day dt.hour dt.minute dt.second dt.usec

instance (dt : PyDateTime) : Decidable dt.Valid := by
  unfold PyDateTime.Valid; infer_instance

def daysBeforeYear (y : Nat) : Nat :=
  (y - 1) * 365 + (y - 1) / 4 - (y - 1) / 100 + (y - 1) / 400

def daysBeforeMonth (y m : Nat) : Nat :=
  ((List.range (m - 1)).map (fun i => daysInMonth y (i + 1))).sum

def PyDateTime.toOrdinal (dt : PyDateTime) : Nat :=
  daysBeforeYear dt.year + daysBeforeMonth dt.year dt.month + dt.day

def PyDateTime.toMicros (dt : PyDateTime) : Nat :=
  (dt.toOrdinal * 86400 + dt.hour * 3600 + dt.minute * 60 + dt.second) * 1000000 + dt.usec

/-- Embeds Python datetime subtraction (a - b) as a signed microsecond count. -/
def diffMicros (a b : PyDateTime) : Int := (a.toMicros : Int) - (b.toMicros : Int)

/-- Embeds timedelta(hours=h) as a microsecond count. -/
def hoursMicros (h : Nat) : Int := (h : Int) * 3600000000

/-! ### isoformat and fromisoformat -/

def dChar (d : Nat) : Char := Char.ofNat (48 + d)

def pad2 (n : Nat) : List Char := [dChar (n / 10 % 10), dChar (n % 10)]

def pad4 (n : Nat) : List Char :=
  [dChar (n / 1000 % 10), dChar (n / 100 % 10), dChar (n / 10 % 10), dChar (n % 10)]

def pad6 (n : Nat) : List Char :=
  [dChar (n / 100000 % 10), dChar (n / 10000 % 10), dChar (n / 1000 % 10),
   dChar (n / 100 % 10), dChar (n / 10 % 10), dChar (n % 10)]

def isoformatChars (dt : PyDateTime) : List Char :=
  pad4 dt.year ++ '-' :: pad2 dt.month ++ '-' :: pad2 dt.day ++
    'T' :: pad2 dt.hour ++ ':' :: pad2 dt.minute ++ ':' :: pad2 dt.second ++
    (if dt.usec = 0 then [] else '.' :: pad6 dt.usec)

/-- Embeds datetime.isoformat(): YYYY-MM-DDTHH:MM:SS with a .ffffff part
exactly when the microsecond field is nonzero. -/
def isoformat (dt : PyDateTime) : String := String.mk (isoformatChars dt)

/-- Embeds datetime.strftime of the pattern %Y-%m-%d used for findings buckets. -/
def dateStr (dt : PyDateTime) : String :=
  String.mk (pad4 dt.year ++ '-' :: pad2 dt.month ++ '-' :: pad2 dt.day)

def digVal (c : Char) : Option Nat :=
  if 48 ≤ c.toNat ∧ c.toNat ≤ 57 then some (c.toNat - 48) else none

def read2 (a b : Char) : Option Nat := do
  let x ← digVal a
  let y ← digVal b
  pure (10 * x + y)

def read4 (a b c d : Char) : Option Nat := do
  let x ← digVal a
  let y ← digVal b
  let z ← digVal c
  let w ← digVal d
  pure (1000 * x + 100 * y + 10 * z + w)

def read6 (a b c d e f : Char) : Option Nat := do
  let x ← digVal a
  let y ← digVal b
  let z ← digVal c
  let w ← digVal d
  let v ← digVal e
  let u ← digVal f
  pure (100000 * x + 10000 * y + 1000 * z + 100 * w + 10 * v + u)

def mkDateTime (y mo da h mi se us : Nat) : Option PyDateTime :=
  if ValidRanges y mo da h mi se us then some ⟨y, mo, da, h, mi, se, us⟩ else none

def parseTimePart (rest : List Char) : Option (Nat × Nat × Nat × Nat) :=
  match rest with
  | [a1, a2, c1, b1, b2, c2, e1, e2] =>
    if c1 = ':' ∧ c2 = ':' then do
      let h ← read2 a1 a2
      let mi ← read2 b1 b2
      let se ← read2 e1 e2
      pure (h, mi, se, 0)
    else none
  | [a1, a2, c1, b1, b2, c2, e1, e2, dot, u1, u2, u3, u4, u5, u6] =>
    if c1 = ':' ∧ c2 = ':' ∧ dot = '.' then do
      let h ← read2 a1 a2
      let mi ← read2 b1 b2
      let se ← read2 e1 e2
      let us ← read6 u1 u2 u3 u4 u5 u6
      pure (h, mi, se, us)
    else none
  | _ => none

/-- Embeds datetime.fromisoformat on the grammar the program itself emits
(date, or date plus a one-character separator and a HH:MM:SS time with an
optional six-digit fraction); everything else is rejected, which models the
ValueError the Python parser raises on such inputs. -/
def fromisoformat (s : String) : Option PyDateTime :=
  match s.data with
  | [y1, y2, y3, y4, h1, m1, m2, h2, d1, d2] =>
    if h1 = '-' ∧ h2 = '-' then do
      let y ← read4 y1 y2 y3 y4
      let mo ← read2 m1 m2
      let da ← read2 d1 d2
      mkDateTime y mo da 0 0 0 0
    else none
  | y1 :: y2 :: y3 :: y4 :: h1 :: m1 :: m2 :: h2 :: d1 :: d2 :: _sep :: rest =>
    if h1 = '-' ∧ h2 = '-' then do
      let y ← read4 y1 y2 y3 y4
      let mo ← read2 m1 m2
      let da ← read2 d1 d2
      let t ← parseTimePart rest
      mkDateTime y mo da t.1 t.2.1 t.2.2.1 t.2.2.2
    else none
  | _ => none

/-! ### Roundtrip of isoformat and fromisoformat -/

theorem digVal_dChar : ∀ k < 10, digVal (dChar k) = some k := by decide

theorem read2_pad2 (n : Nat) (h : n ≤ 99) :
    read2 (dChar (n / 10 % 10)) (dChar (n % 10)) = some n := by
  rw [read2, digVal_dChar _ (Nat.mod_lt _ (by omega)), digVal_dChar _ (Nat.mod_lt _ (by omega))]
  show some _ = some n
  congr 1
  omega

theorem read4_pad4 (n : Nat) (h : n ≤ 9999) :
    read4 (dChar (n / 1000 % 10)) (dChar (n / 100 % 10)) (dChar (n / 10 % 10))
      (dChar (n % 10)) = some n := by
  rw [read4, digVal_dChar _ (Nat.mod_lt _ (by omega)), digVal_dChar _ (Nat.mod_lt _ (by omega)),
    digVal_dChar _ (Nat.mod_lt _ (by omega)), digVal_dChar _ (Nat.mod_lt _ (by omega))]
  show some _ = some n
  congr 1
  omega

theorem read6_pad6 (n : Nat) (h : n ≤ 999999) :
    read6 (dChar (n / 100000 % 10)) (dChar (n / 10000 % 10)) (dChar (n / 1000 % 10))
      (dChar (n / 100 % 10)) (dChar (n / 10 % 10)) (dChar (n % 10)) = some n := by
  rw [read6, digVal_dChar _ (Nat.mod_lt _ (by omega)), digVal_dChar _ (Nat.mod_lt _ (by omega)),
    digVal_dChar _ (Nat.mod_lt _ (by omega)), digVal_dChar _ (Nat.mod_lt _ (by omega)),
    digVal_dChar _ (Nat.mod_lt _ (by omega)), digVal_dChar _ (Nat.mod_lt _ (by omega))]
  show some _ = some n
  congr 1
  omega

theorem daysInMonth_le (y m : Nat) : daysInMonth y m ≤ 31 := by
  unfold daysInMonth
  split
  · split <;> omega
  · split <;> omega

theorem fromisoformat_isoformat (dt : PyDateTime) (h : dt.Valid) :
    fromisoformat (isoformat dt) = some dt := by
  obtain ⟨y, mo, da, hh, mi, se, us⟩ := dt
  unfold PyDateTime.Valid ValidRanges at h
  dsimp only at h
  obtain ⟨h1, h2, h3, h4, h5, h6, h7, h8, h9, h10⟩ := h
  have hv : ValidRanges y mo da hh mi se us := by
    exact ⟨h1, h2, h3, h4, h5, h6, h7, h8, h9, h10⟩
  by_cases hus : us = 0
  · subst hus
    simp only [fromisoformat, isoformat, isoformatChars, pad4, pad2, pad6, if_pos rfl,
      List.cons_append, List.nil_append]
    simp only [parseTimePart, read4_pad4 y (by omega), read2_pad2 mo (by omega),
      read2_pad2 da (by have := daysInMonth_le y mo; omega), read2_pad2 hh (by omega), read2_pad2 mi (by omega),
      read2_pad2 se (by omega), Option.bind_eq_bind, Option.pure_def, Option.some_bind, mkDateTime,
      and_self, if_true, reduceIte]
    rw [if_pos hv]
  · simp only [fromisoformat, isoformat, isoformatChars, pad4, pad2, pad6, if_neg hus,
      List.cons_append, List.nil_append]
    simp only [parseTimePart, read4_pad4 y (by omega), read2_pad2 mo (by omega),
      read2_pad2 da (by have := daysInMonth_le y mo; omega), read2_pad2 hh (by omega), read2_pad2 mi (by omega),
      read2_pad2 se (by omega), read6_pad6 us (by omega), Option.bind_eq_bind,
      Option.pure_def, Option.some_bind, mkDateTime, and_self, if_true, reduceIte]
    rw [if_pos hv]

/-! ### Data model

Python dicts with known field sets become structures whose fields are Option
(none models an absent key, mirroring dict.get defaults); the open-keyed maps
(topics, url_hash_map, findings buckets, the alert queue) become association
lists with Python dict update semantics (first occurrence updated in place,
new keys appended).  Scores are floats in Python; the engine never computes
with them, only passes them through, so they are carried as Int payloads. -/

def alget {α β : Type} [DecidableEq α] (m : List (α × β)) (k : α) : Option β :=
  match m with
  | [] => none
  | (k', v) :: rest => if k' = k then some v else alget rest k

def alset {α β : Type} [DecidableEq α] (m : List (α × β)) (k : α) (v : β) : List (α × β) :=
  match m with
  | [] => [(k, v)]
  | (k', v') :: rest => if k' = k then (k, v) :: rest else (k', v') :: alset rest k v

structure TopicState where
  last_check : Option String := none
  last_results_count : Option Nat := none
  alerts_today : Option Nat := none
  findings_count : Option Nat := none
deriving DecidableEq, Repr

structure MState where
  topics : Option (List (Option String × TopicState)) := none
  dedup : Option (List (String × String)) := none
deriving DecidableEq, Repr

structure Settings where
  max_alerts_per_day : Option Nat := none
  max_alerts_per_topic_per_day : Option Nat := none
  deduplication_window_hours : Option Nat := none
deriving DecidableEq, Repr

structure Topic where
  id : Option String := none
  name : Option String := none
  frequency : Option String := none
  channels : List String := []
  context : Option String := none
deriving DecidableEq, Repr

structure SearchResult where
  title : Option String := none
  url : Option String := none
  snippet : Option String := none
deriving DecidableEq, Repr

structure Alert where
  id : Option String := none
  timestamp : Option String := none
  priority : Option String := none
  channel : Option String := none
  topic_id : Option String := none
  topic_name : Option String := none
  title : Option String := none
  snippet : Option String := none
  url : Option String := none
  score : Option Int := none
  reason : Option String := none
  message : Option String := none
  context : Option String := none
  sent : Option Bool := none
deriving DecidableEq, Repr

structure Finding where
  result : SearchResult
  score : Int
  reason : String
  timestamp : String
deriving DecidableEq, Repr

/-- The persisted documents outside the in-memory state: the saved state file,
the findings buckets keyed by (topic_id, date), and the alert queue file. -/
structure World where
  stateDoc : Option MState := none
  findings : List ((Option String × String) × List Finding) := []
  alertsQueue : List Alert := []
deriving DecidableEq, Repr

/-! ### Deduplication filter (monitor.py lines 33-55) -/

/-- Embeds is_duplicate.  The Except models the uncaught ValueError that
datetime.fromisoformat raises on a malformed stored timestamp. -/
def is_duplicate (url : String) (state : MState) (dedup_hours : Nat) (now : PyDateTime) :
    Except Unit Bool :=
  let url_hash := hash_url url
  let dedup_map := state.dedup.getD []
  match alget dedup_map url_hash with
  | none => .ok false
  | some last_seen_str =>
    match fromisoformat last_seen_str with
    | none => .error ()
    | some last_seen => .ok (decide (diffMicros now last_seen < hoursMicros dedup_hours))

/-- Embeds mark_as_seen: unconditionally overwrites the map entry for the url
hash with the current timestamp, creating the map if absent. -/
def mark_as_seen (url : String) (state : MState) (now : PyDateTime) : MState :=
  { state with dedup := some (alset (state.dedup.getD []) (hash_url url) (isoformat now)) }

/-! ### Scheduling and rate limits (monitor.py lines 152-203) -/

def topicStateOf (state : MState) (topic_id : Option String) : TopicState :=
  (alget (state.topics.getD []) topic_id).getD {}

/-- Embeds should_check_topic.  A missing frequency key defaults to daily; an
empty last_check string is falsy in Python and counts as never checked; a
malformed last_check raises (error). -/
def should_check_topic (topic : Topic) (state : MState) (force : Bool) (now : PyDateTime) :
    Except Unit Bool :=
  if force then .ok true
  else
    let frequency := topic.frequency.getD "daily"
    let topic_state := topicStateOf state topic.id
    match topic_state.last_check with
    | none => .ok true
    | some s =>
      if s = "" then .ok true
      else
        match fromisoformat s with
        | none => .error ()
        | some last_check =>
          if frequency = "hourly" then .ok (decide (diffMicros now last_check ≥ hoursMicros 1))
          else if frequency = "daily" then .ok (decide (diffMicros now last_check ≥ hoursMicros 24))
          else if frequency = "weekly" then .ok (decide (diffMicros now last_check ≥ hoursMicros 168))
          else .ok false

def totalAlertsToday (state : MState) : Nat :=
  ((state.topics.getD []).map (fun p => p.2.alerts_today.getD 0)).sum

/-- Embeds check_rate_limits: false when the topic counter has reached the
per-topic cap (default 2) or the summed counters have reached the global cap
(default 5). -/
def check_rate_limits (topic : Topic) (state : MState) (settings : Settings) : Bool :=
  let max_per_day := settings.max_alerts_per_day.getD 5
  let max_per_topic_per_day := settings.max_alerts_per_topic_per_day.getD 2
  let alerts_today := (topicStateOf state topic.id).alerts_today.getD 0
  if alerts_today ≥ max_per_topic_per_day then false
  else if totalAlertsToday state ≥ max_per_day then false
  else true

/-! ### Alert queue (config.py lines 136-261) -/

/-- Embeds the id computation inside queue_alert: md5 hex digest of the
concatenated url and timestamp fields (each defaulting to the empty string),
truncated to 12 characters. -/
def computeAlertId (alert : Alert) : String :=
  String.mk ((md5Hex (utf8Encode (alert.url.getD "" ++ alert.timestamp.getD ""))).data.take 12)

/-- Embeds queue_alert on the queue document: stamps id and sent, fills a
missing timestamp with the current time, and appends unless an entry with the
same id is already present.  Returns the id together with the new queue. -/
def queue_alert (now : PyDateTime) (alert : Alert) (queue : List Alert) :
    String × List Alert :=
  let alert_id := computeAlertId alert
  let stamped : Alert :=
    { alert with
      id := some alert_id
      sent := some false
      timestamp := some (alert.timestamp.getD (isoformat now)) }
  if queue.any (fun a => decide (a.id = some alert_id)) then (alert_id, queue)
  else (alert_id, queue ++ [stamped])

/-- Embeds clear_old_alerts on the queue document: keeps exactly the entries
whose timestamp fails to parse (fail safe toward retention) or parses to a
datetime strictly after the cutoff now - max_age_hours. -/
def clear_old_alerts (now : PyDateTime) (max_age_hours : Nat) (queue : List Alert) :
    List Alert :=
  let cutoff : Int := (now.toMicros : Int) - hoursMicros max_age_hours
  queue.filter (fun a =>
    match fromisoformat (a.timestamp.getD "") with
    | none => true
    | some ts => decide ((ts.toMicros : Int) > cutoff))

/-! ### Orchestrator (monitor.py lines 206-281 and 353-438 and 491-503) -/

/-- Display-only rendering of the alert message body; the engine never
inspects this text, so the markdown framing and snippet truncation of the
source are abridged to the concatenation of the same parts. -/
def renderMessage (topic : Topic) (result : SearchResult) (reason : String) : String :=
  topic.name.getD "Research Alert" ++ "\n" ++ result.title.getD "Untitled" ++ "\n" ++
    result.snippet.getD "" ++ "\n" ++ topic.context.getD "" ++ "\n" ++
    result.url.getD "" ++ "\n" ++ reason

/-- Embeds send_alert: in dry-run mode it only prints and queues nothing;
otherwise it queues one alert per configured channel. -/
def send_alert (topic : Topic) (result : SearchResult) (priority : String) (score : Int)
    (reason : String) (now : PyDateTime) (dryRun : Bool) (queue : List Alert) :
    List Alert :=
  if dryRun then queue
  else
    topic.channels.foldl
      (fun q channel =>
        let alert_data : Alert :=
          { timestamp := some (isoformat now)
            priority := some priority
            channel := some channel
            topic_id := topic.id
            topic_name := some (topic.name.getD "Research Alert")
            title := some (result.title.getD "")
            snippet := some (result.snippet.getD "")
            url := some (result.url.getD "")
            score := some score
            reason := some reason
            message := some (renderMessage topic result reason)
            context := some (topic.context.getD "") }
        (queue_alert now alert_data q).2)
      queue

structure Cand where
  result : SearchResult
  score : Int
  reason : String
deriving DecidableEq, Repr

/-- Output of the per-result loop: the mutated state, the high and medium
buckets, a trace of the dedup decisions taken (url, was-duplicate), and false
when an uncaught exception aborted the loop. -/
structure BatchOut where
  st : MState
  highs : List Cand
  meds : List Cand
  trace : List (String × Bool)
  ok : Bool
deriving DecidableEq, Repr

/-- Embeds the per-result loop of monitor_topic (lines 372-394): skip
duplicates, score, bucket into high and medium, mark every examined
non-duplicate as seen.  On an uncaught exception (malformed stored timestamp
inside is_duplicate) the loop aborts, leaving the mutations made so far in
place, as Python in-place mutation does. -/
def processResults (scoreFn : SearchResult → String × Int × String) (dedupHours : Nat)
    (now : PyDateTime) (results : List SearchResult) (st : MState) : BatchOut :=
  match results with
  | [] => ⟨st, [], [], [], true⟩
  | r :: rest =>
    let url := r.url.getD ""
    match is_duplicate url st dedupHours now with
    | .error _ => ⟨st, [], [], [], false⟩
    | .ok true =>
      let o := processResults scoreFn dedupHours now rest st
      { o with trace := (url, true) :: o.trace }
    | .ok false =>
      let prio := (scoreFn r).1
      let o := processResults scoreFn dedupHours now rest (mark_as_seen url st now)
      { o with
        highs := if prio = "high" then ⟨r, (scoreFn r).2.1, (scoreFn r).2.2⟩ :: o.highs else o.highs
        meds := if prio = "medium" then ⟨r, (scoreFn r).2.1, (scoreFn r).2.2⟩ :: o.meds else o.meds
        trace := (url, false) :: o.trace }

/-- Embeds the alerts_today increment of monitor_topic (lines 402-409). -/
def incrementAlerts (st : MState) (topic_id : Option String) : MState :=
  let topics := st.topics.getD []
  let ts := (alget topics topic_id).getD {}
  { st with
    topics := some (alset topics topic_id
      { ts with alerts_today := some (ts.alerts_today.getD 0 + 1) }) }

/-- Output of the high-priority disposition loop; the log records the
post-increment per-topic and global counters at each accepted disposition. -/
structure DispOut where
  st : MState
  queue : List Alert
  log : List (Nat × Nat)
deriving DecidableEq, Repr

/-- Embeds the high-priority disposition loop of monitor_topic (lines
396-412): re-check the rate limits before each candidate, queue on success,
then increment the counter (unless dry-run). -/
def dispositionLoop (topic : Topic) (settings : Settings) (now : PyDateTime) (dryRun : Bool)
    (cands : List Cand) (st : MState) (queue : List Alert) : DispOut :=
  match cands with
  | [] => ⟨st, queue, []⟩
  | c :: rest =>
    if check_rate_limits topic st settings then
      let queue1 := send_alert topic c.result "high" c.score c.reason now dryRun queue
      let st1 := if dryRun then st else incrementAlerts st topic.id
      let entry := ((topicStateOf st1 topic.id).alerts_today.getD 0, totalAlertsToday st1)
      let o := dispositionLoop topic settings now dryRun rest st1 queue1
      { o with log := entry :: o.log }
    else
      dispositionLoop topic settings now dryRun rest st queue

/-- Embeds save_finding (config.py lines 105-120): append to the
(topic_id, date) bucket. -/
def save_finding (topic_id : Option String) (date : String) (finding : Finding)
    (findings : List ((Option String × String) × List Finding)) :
    List ((Option String × String) × List Finding) :=
  alset findings (topic_id, date) ((alget findings (topic_id, date)).getD [] ++ [finding])

/-- Embeds the topic-state checkpoint of monitor_topic (lines 428-438). -/
def checkpointTopic (st : MState) (topic_id : Option String) (nResults nMeds : Nat)
    (now : PyDateTime) : MState :=
  let topics := st.topics.getD []
  let ts := (alget topics topic_id).getD {}
  { st with
    topics := some (alset topics topic_id
      { ts with
        last_check := some (isoformat now)
        last_results_count := some nResults
        findings_count := some (ts.findings_count.getD 0 + nMeds) }) }

/-- Embeds monitor_topic (lines 353-438).  The search collaborator is
injected as the results list (spec section 6); the scorer, whose module is
external to the engine, is injected as a pure function per its contract.  The
returned flag is false when an uncaught exception aborted the per-result loop:
the state mutations made before the exception remain, and the disposition,
findings, and checkpoint phases never run. -/
def monitor_topic (scoreFn : SearchResult → String × Int × String) (topic : Topic)
    (settings : Settings) (now : PyDateTime) (results : List SearchResult) (dryRun : Bool)
    (st : MState) (w : World) : MState × World × Bool :=
  let dedupHours := settings.deduplication_window_hours.getD 72
  let o := processResults scoreFn dedupHours now results st
  if o.ok then
    let d := dispositionLoop topic settings now dryRun o.highs o.st w.alertsQueue
    let w2 := { w with alertsQueue := d.queue }
    let w3 :=
      if dryRun then w2
      else
        { w2 with
          findings := o.meds.foldl
            (fun fs c => save_finding topic.id (dateStr now) ⟨c.result, c.score, c.reason, isoformat now⟩ fs)
            w2.findings }
    let st3 := if dryRun then d.st else checkpointTopic d.st topic.id results.length o.meds.length now
    (st3, w3, true)
  else (o.st, w, false)

/-- Embeds the per-topic loop of main (lines 491-498): each topic is run in a
try block, so a failure (flag false) is logged and the loop continues with the
mutated state. -/
def runTopics (scoreFn : SearchResult → String × Int × String) (settings : Settings)
    (now : PyDateTime) (dryRun : Bool) (topics : List (Topic × List SearchResult))
    (st : MState) (w : World) : MState × World :=
  match topics with
  | [] => (st, w)
  | (t, rs) :: rest =>
    let r := monitor_topic scoreFn t settings now rs dryRun st w
    runTopics scoreFn settings now dryRun rest r.1 r.2.1

/-- Embeds the tail of main (lines 491-503): run every due topic, then save
the state document once unless dry-run. -/
def mainLoop (scoreFn : SearchResult → String × Int × String) (settings : Settings)
    (now : PyDateTime) (dryRun : Bool) (topics : List (Topic × List SearchResult))
    (st : MState) (w : World) : MState × World :=
  let r := runTopics scoreFn settings now dryRun topics st w
  (r.1, if dryRun then r.2 else { r.2 with stateDoc := some r.1 })

/-! ### Concrete fixtures used by witnesses and counterexamples -/

def now0 : PyDateTime := ⟨2025, 1, 8, 12, 0, 0, 0⟩

def markT : PyDateTime := ⟨2025, 1, 1, 0, 0, 0, 0⟩

def queryIn : PyDateTime := ⟨2025, 1, 2, 0, 0, 0, 0⟩

def queryOut : PyDateTime := ⟨2025, 1, 5, 0, 0, 0, 0⟩

def urlW : String := "https://example.com/x"

def stMalformed : MState :=
  { dedup := some [(hash_url "https://example.com/a", "not-a-timestamp")] }

def topicT1 : Topic := { id := some "t1", channels := ["telegram"] }

def stTwoAlerts : MState := { topics := some [(some "t1", { alerts_today := some 2 })] }

def topicBadFreq : Topic := { id := some "t1", frequency := some "fortnightly" }

def stChecked : MState :=
  { topics := some [(some "t1", { last_check := some "2025-01-01T00:00:00" })] }

def rW : SearchResult := { url := some urlW }

def scoreLow : SearchResult → String × Int × String := fun _ => ("low", 0, "below threshold")

def alertW : Alert :=
  { url := some "https://example.com/w", timestamp := some "2025-01-02T03:04:05" }

def now8 : PyDateTime := ⟨2025, 1, 8, 0, 0, 0, 0⟩

def alertOld : Alert := { timestamp := some "2024-12-30T16:00:00" }

def alertNew : Alert := { timestamp := some "2025-01-07T14:00:00" }

def alertBoundary : Alert := { timestamp := some "2025-01-01T00:00:00" }

def urlA : String := "https://a.example/item"

def urlB : String := "https://b.example/item"

def rA : SearchResult := { url := some urlA }

def rB : SearchResult := { url := some urlB }

def topicT2 : Topic := { id := some "t2" }

def stGarbageB : MState := { dedup := some [(hash_url urlB, "garbage")] }

def c2step : MState × World × Bool :=
  monitor_topic scoreLow topicT1 {} now0 [rA, rB] false stGarbageB {}

def c2tail : MState × World :=
  runTopics scoreLow {} now0 false [(topicT2, [])] c2step.1 c2step.2.1

def c2run : MState × World :=
  mainLoop scoreLow {} now0 false [(topicT1, [rA, rB]), (topicT2, [])] stGarbageB {}

/-! ### Association-list lemmas -/

theorem alget_alset_self {α β : Type} [DecidableEq α] (m : List (α × β)) (k : α) (v : β) :
    alget (alset m k v) k = some v := by
  induction m with
  | nil => simp [alget, alset]
  | cons p rest ih =>
    obtain ⟨k', v'⟩ := p
    by_cases h : k' = k <;> simp [alget, alset, h, ih]

theorem alget_alset_ne {α β : Type} [DecidableEq α] (m : List (α × β)) (k k2 : α) (v : β)
    (h : k ≠ k2) : alget (alset m k v) k2 = alget m k2 := by
  induction m with
  | nil => simp [alget, alset, h]
  | cons p rest ih =>
    obtain ⟨k', v'⟩ := p
    by_cases hk : k' = k
    · subst hk
      simp [alget, alset, h]
    · by_cases hk2 : k' = k2 <;> simp [alget, alset, hk, hk2, Ne.symm h, ih]

/-! ### Rate-limit lemmas -/

theorem check_rate_limits_false_iff (topic : Topic) (st : MState) (settings : Settings) :
    check_rate_limits topic st settings = false ↔
      settings.max_alerts_per_topic_per_day.getD 2 ≤
          (topicStateOf st topic.id).alerts_today.getD 0 ∨
        settings.max_alerts_per_day.getD 5 ≤ totalAlertsToday st := by
  unfold check_rate_limits
  dsimp only
  split_ifs with h1 h2
  · simp [h1]
  · simp [h1, h2]
  · simp [h1, h2]

theorem check_rate_limits_true_iff (topic : Topic) (st : MState) (settings : Settings) :
    check_rate_limits topic st settings = true ↔
      (topicStateOf st topic.id).alerts_today.getD 0 <
          settings.max_alerts_per_topic_per_day.getD 2 ∧
        totalAlertsToday st < settings.max_alerts_per_day.getD 5 := by
  rw [← Bool.not_eq_false, not_iff_comm, check_rate_limits_false_iff]
  omega

theorem topicAlerts_incrementAlerts (st : MState) (tid : Option String) :
    (topicStateOf (incrementAlerts st tid) tid).alerts_today.getD 0 =
      (topicStateOf st tid).alerts_today.getD 0 + 1 := by
  unfold incrementAlerts topicStateOf
  simp [alget_alset_self]

theorem sum_alset_inc (m : List (Option String × TopicState)) (k : Option String)
    (v : TopicState)
    (hv : v.alerts_today.getD 0 = ((alget m k).getD {}).alerts_today.getD 0 + 1) :
    ((alset m k v).map (fun p => p.2.alerts_today.getD 0)).sum =
      (m.map (fun p => p.2.alerts_today.getD 0)).sum + 1 := by
  induction m with
  | nil =>
    simp [alget] at hv
    simp [alset, hv]
  | cons p rest ih =>
    obtain ⟨k', v'⟩ := p
    by_cases h : k' = k
    · subst h
      simp [alget] at hv
      simp [alset, hv]
      omega
    · simp [alget, h] at hv
      simp [alset, h, ih hv]
      omega

theorem totalAlerts_incrementAlerts (st : MState) (tid : Option String) :
    totalAlertsToday (incrementAlerts st tid) = totalAlertsToday st + 1 := by
  unfold incrementAlerts totalAlertsToday
  simp only [Option.getD_some]
  exact sum_alset_inc _ tid _ (by simp)

/-! ### Dedup-marking lemmas -/

theorem marked_after_mark (st : MState) (u : String) (now : PyDateTime) :
    alget ((mark_as_seen u st now).dedup.getD []) (hash_url u) = some (isoformat now) := by
  unfold mark_as_seen
  simp [alget_alset_self]

theorem marked_preserved_mark (st : MState) (u v : String) (now : PyDateTime)
    (h : alget (st.dedup.getD []) (hash_url u) = some (isoformat now)) :
    alget ((mark_as_seen v st now).dedup.getD []) (hash_url u) = some (isoformat now) := by
  unfold mark_as_seen
  by_cases hv : hash_url v = hash_url u
  · simp [hv, alget_alset_self]
  · simp [alget_alset_ne _ _ _ _ hv, h]

theorem is_duplicate_of_marked (u : String) (st : MState) (hours : Nat) (now : PyDateTime)
    (hv : now.Valid) (hh : 1 ≤ hours)
    (h : alget (st.dedup.getD []) (hash_url u) = some (isoformat now)) :
    is_duplicate u st hours now = .ok true := by
  have hage : diffMicros now now < hoursMicros hours := by
    unfold diffMicros hoursMicros
    have : (1 : Int) ≤ (hours : Int) := by exact_mod_cast hh
    nlinarith
  simp [is_duplicate, h, fromisoformat_isoformat now hv, hage]

/-! ### Trace lemmas for the per-result loop -/

theorem processResults_preserves_marked (scoreFn : SearchResult → String × Int × String)
    (hours : Nat) (now : PyDateTime) :
    ∀ (results : List SearchResult) (st : MState) (u : String),
    alget (st.dedup.getD []) (hash_url u) = some (isoformat now) →
    alget ((processResults scoreFn hours now results st).st.dedup.getD []) (hash_url u) =
      some (isoformat now) := by
  intro results
  induction results with
  | nil => intro st u h; exact h
  | cons r rest ih =>
    intro st u h
    unfold processResults
    dsimp only
    split
    · exact h
    · exact ih st u h
    · exact ih _ u (marked_preserved_mark st u (r.url.getD "") now h)

theorem processResults_trace_marked (scoreFn : SearchResult → String × Int × String)
    (hours : Nat) (now : PyDateTime) :
    ∀ (results : List SearchResult) (st : MState) (u : String),
    (u, false) ∈ (processResults scoreFn hours now results st).trace →
    alget ((processResults scoreFn hours now results st).st.dedup.getD []) (hash_url u) =
      some (isoformat now) := by
  intro results
  induction results with
  | nil => intro st u h; simp [processResults] at h
  | cons r rest ih =>
    intro st u h
    unfold processResults at h ⊢
    dsimp only at h ⊢
    split at h
    · simp at h
    · dsimp only at h ⊢
      rcases List.mem_cons.mp h with h | h
      · exact absurd (congrArg Prod.snd h) (by simp)
      · exact ih st u h
    · dsimp only at h ⊢
      rcases List.mem_cons.mp h with h | h
      · have hu : u = r.url.getD "" := congrArg Prod.fst h
        rw [hu]
        exact processResults_preserves_marked scoreFn hours now rest _ _
          (marked_after_mark st _ now)
      · exact ih _ u h

theorem processResults_trace_sound (scoreFn : SearchResult → String × Int × String)
    (hours : Nat) (now : PyDateTime) (hv : now.Valid) (hh : 1 ≤ hours) :
    ∀ (results : List SearchResult) (st : MState) (u : String) (d : Bool),
    alget (st.dedup.getD []) (hash_url u) = some (isoformat now) →
    (u, d) ∈ (processResults scoreFn hours now results st).trace → d = true := by
  intro results
  induction results with
  | nil => intro st u d hm h; simp [processResults] at h
  | cons r rest ih =>
    intro st u d hm h
    unfold processResults at h
    dsimp only at h
    split at h
    · simp at h
    · simp only [List.mem_cons] at h
      rcases h with h | h
      · exact congrArg Prod.snd h
      · exact ih st u d hm h
    · next heq =>
      simp only [List.mem_cons] at h
      rcases h with h | h
      · exfalso
        have hu : u = r.url.getD "" := congrArg Prod.fst h
        rw [← hu] at heq
        rw [is_duplicate_of_marked u st hours now hv hh hm] at heq
        exact absurd (Except.ok.inj heq) (by simp)
      · exact ih _ u d (marked_preserved_mark st u (r.url.getD "") now hm) h

theorem processResults_trace_split (scoreFn : SearchResult → String × Int × String)
    (hours : Nat) (now : PyDateTime) (hv : now.Valid) (hh : 1 ≤ hours) :
    ∀ (results : List SearchResult) (st : MState) (pre mid post : List (String × Bool))
      (u : String) (d : Bool),
    (processResults scoreFn hours now results st).trace =
      pre ++ (u, false) :: mid ++ (u, d) :: post → d = true := by
  intro results
  induction results with
  | nil => intro st pre mid post u d heq; simp [processResults] at heq
  | cons r rest ih =>
    intro st pre mid post u d heq
    unfold processResults at heq
    dsimp only at heq
    split at heq
    · simp at heq
    · cases pre with
      | nil =>
        simp only [List.nil_append] at heq
        injection heq with h1 h2
        exact absurd (congrArg Prod.snd h1) (by simp)
      | cons p pre' =>
        simp only [List.cons_append] at heq
        injection heq with h1 h2
        exact ih st pre' mid post u d h2
    · cases pre with
      | nil =>
        simp only [List.nil_append] at heq
        injection heq with h1 h2
        have hu : u = r.url.getD "" := (congrArg Prod.fst h1).symm
        have hmem : (u, d) ∈ (processResults scoreFn hours now rest
            (mark_as_seen (r.url.getD "") st now)).trace := by
          rw [h2]
          simp
        refine processResults_trace_sound scoreFn hours now hv hh rest _ u d ?_ hmem
        rw [hu]
        exact marked_after_mark st (r.url.getD "") now
      | cons p pre' =>
        simp only [List.cons_append] at heq
        injection heq with h1 h2
        exact ih _ pre' mid post u d h2

/-! ### Alert-queue lemmas -/

theorem computeAlertId_congr (a b : Alert) (hu : a.url = b.url) (ht : a.timestamp = b.timestamp) :
    computeAlertId a = computeAlertId b := by
  unfold computeAlertId
  rw [hu, ht]

theorem queue_alert_fst (now : PyDateTime) (a : Alert) (q : List Alert) :
    (queue_alert now a q).1 = computeAlertId a := by
  unfold queue_alert
  dsimp only
  split <;> rfl

theorem queue_alert_snd_of_present (now : PyDateTime) (a : Alert) (q : List Alert)
    (h : q.any (fun x => decide (x.id = some (computeAlertId a))) = true) :
    (queue_alert now a q).2 = q := by
  unfold queue_alert
  dsimp only
  simp [h]

theorem queue_alert_snd_of_absent (now : PyDateTime) (a : Alert) (q : List Alert)
    (h : q.any (fun x => decide (x.id = some (computeAlertId a))) = false) :
    (queue_alert now a q).2 = q ++
      [{ a with
          id := some (computeAlertId a)
          sent := some false
          timestamp := some (a.timestamp.getD (isoformat now)) }] := by
  unfold queue_alert
  dsimp only
  simp [h]

theorem count_zero_of_any_false (q : List Alert) (i : String)
    (h : q.any (fun a => decide (a.id = some i)) = false) :
    (q.filter (fun a => decide (a.id = some i))).length = 0 := by
  simp only [List.any_eq_false, decide_eq_true_eq] at h
  simp only [List.length_eq_zero, List.filter_eq_nil_iff, decide_eq_true_eq]
  exact h

theorem count_one_of_pairwise (q : List Alert) (i : String)
    (hpw : q.Pairwise (fun x y => x.id ≠ y.id))
    (h : q.any (fun a => decide (a.id = some i)) = true) :
    (q.filter (fun a => decide (a.id = some i))).length = 1 := by
  induction q with
  | nil => simp at h
  | cons a rest ih =>
    rw [List.pairwise_cons] at hpw
    by_cases ha : a.id = some i
    · rw [List.filter_cons_of_pos (by simpa using ha)]
      have hrest : (rest.filter (fun b => decide (b.id = some i))).length = 0 := by
        simp only [List.length_eq_zero, List.filter_eq_nil_iff, decide_eq_true_eq]
        intro b hb hbi
        exact (hpw.1 b hb) (ha.trans hbi.symm)
      simp [hrest]
    · rw [List.filter_cons_of_neg (by simpa using ha)]
      apply ih hpw.2
      simp only [List.any_cons, Bool.or_eq_true, decide_eq_true_eq] at h
      rcases h with h | h
      · exact absurd h ha
      · simpa using h

/-! ### Dry-run lemmas -/

theorem dispositionLoop_dryRun_queue (topic : Topic) (settings : Settings) (now : PyDateTime)
    (cands : List Cand) : ∀ (st : MState) (queue : List Alert),
    (dispositionLoop topic settings now true cands st queue).queue = queue := by
  induction cands with
  | nil => intro st q; rfl
  | cons c rest ih =>
    intro st q
    unfold dispositionLoop
    by_cases h : check_rate_limits topic st settings
    · simp [h, send_alert, ih]
    · simp [h, ih]

theorem monitor_topic_dryRun_world (scoreFn : SearchResult → String × Int × String)
    (topic : Topic) (settings : Settings) (now : PyDateTime) (results : List SearchResult)
    (st : MState) (w : World) :
    (monitor_topic scoreFn topic settings now results true st w).2.1 = w := by
  unfold monitor_topic
  by_cases h :
      (processResults scoreFn (settings.deduplication_window_hours.getD 72) now results st).ok
  · simp [h, dispositionLoop_dryRun_queue]
  · simp [h]

theorem runTopics_dryRun_world (scoreFn : SearchResult → String × Int × String)
    (settings : Settings) (now : PyDateTime) (topics : List (Topic × List SearchResult)) :
    ∀ (st : MState) (w : World),
    (runTopics scoreFn settings now true topics st w).2 = w := by
  induction topics with
  | nil => intro st w; rfl
  | cons p rest ih =>
    intro st w
    obtain ⟨t, rs⟩ := p
    show (runTopics scoreFn settings now true rest
      (monitor_topic scoreFn t settings now rs true st w).1
      (monitor_topic scoreFn t settings now rs true st w).2.1).2 = w
    rw [ih, monitor_topic_dryRun_world]

/-! ### Orchestration composability -/

theorem runTopics_append (scoreFn : SearchResult → String × Int × String)
    (settings : Settings) (now : PyDateTime) (dryRun : Bool) :
    ∀ (l1 l2 : List (Topic × List SearchResult)) (st : MState) (w : World),
    runTopics scoreFn settings now dryRun (l1 ++ l2) st w =
      runTopics scoreFn settings now dryRun l2
        (runTopics scoreFn settings now dryRun l1 st w).1
        (runTopics scoreFn settings now dryRun l1 st w).2 := by
  intro l1
  induction l1 with
  | nil => intro l2 st w; rfl
  | cons p rest ih =>
    intro l2 st w
    obtain ⟨t, rs⟩ := p
    simp only [List.cons_append, runTopics]
    exact ih l2 _ _

/-! ### Claim theorems -/

/-- C5: check_rate_limits(topic, state, settings) returns false if and only if
the topic's alerts_today has met or exceeded max_alerts_per_topic_per_day
(default 2) or the sum of alerts_today across all topics has met or exceeded
max_alerts_per_day (default 5); in particular, after 2 accepted alerts for one
topic, a 3rd candidate for that topic is rejected even when the global total
is below 5. -/
theorem check_rate_limits_spec :
    (∀ (topic : Topic) (st : MState) (settings : Settings),
      check_rate_limits topic st settings = false ↔
        settings.max_alerts_per_topic_per_day.getD 2 ≤
            (topicStateOf st topic.id).alerts_today.getD 0 ∨
          settings.max_alerts_per_day.getD 5 ≤ totalAlertsToday st) ∧
    check_rate_limits topicT1 stTwoAlerts {} = false ∧
    totalAlertsToday stTwoAlerts < 5 := by
  refine ⟨check_rate_limits_false_iff, by decide, by decide⟩

/-- C10: should_check_topic returns false (never due, absent force) for a
topic whose frequency is none of hourly, daily, weekly and that has a prior
parseable last_check, while a topic with no frequency field is treated
exactly as daily. -/
theorem should_check_topic_unknown_frequency :
    (∀ (topic : Topic) (st : MState) (now : PyDateTime) (f s : String) (dt : PyDateTime),
      topic.frequency = some f → f ≠ "hourly" → f ≠ "daily" → f ≠ "weekly" →
      (topicStateOf st topic.id).last_check = some s → s ≠ "" →
      fromisoformat s = some dt →
      should_check_topic topic st false now = .ok false) ∧
    (∀ (topic : Topic) (st : MState) (now : PyDateTime),
      should_check_topic { topic with frequency := none } st false now =
        should_check_topic { topic with frequency := some "daily" } st false now) := by
  constructor
  · intro topic st now f s dt hf h1 h2 h3 hlc hs hparse
    simp [should_check_topic, hf, hlc, hs, hparse, h1, h2, h3]
  · intro topic st now
    rfl

/-- C10 witness: a topic with frequency misspelled as fortnightly and a prior
parseable last_check is never due. -/
theorem should_check_topic_unknown_frequency_witness :
    should_check_topic topicBadFreq stChecked false now0 = .ok false :=
  should_check_topic_unknown_frequency.1 topicBadFreq stChecked now0 "fortnightly"
    "2025-01-01T00:00:00" ⟨2025, 1, 1, 0, 0, 0, 0⟩ rfl (by decide) (by decide) (by decide)
    (by decide) (by decide) (by decide)

/-- C1: contrary to the fail-open requirement, is_duplicate raises the
ValueError of datetime.fromisoformat (modelled as an error result) when the
dedup map holds a malformed timestamp for the hash of the queried url, instead
of returning false. -/
theorem is_duplicate_malformed_timestamp_raises :
    is_duplicate "https://example.com/a" stMalformed 72 now0 = .error () := by
  have h : alget (stMalformed.dedup.getD []) (hash_url "https://example.com/a") =
      some "not-a-timestamp" := by
    simp [stMalformed, alget]
  have hp : fromisoformat "not-a-timestamp" = none := by decide
  simp [is_duplicate, h, hp]

/-- C6: after mark_as_seen at time t, is_duplicate over a window of w hours
answers true at every query time in the window [t, t+w) and false at or after
t+w, and a url whose hash is absent from the dedup map is never a duplicate. -/
theorem dedup_window_spec :
    (∀ (u : String) (st : MState) (w : Nat) (t q : PyDateTime), t.Valid →
      (t.toMicros ≤ q.toMicros → q.toMicros < t.toMicros + w * 3600000000 →
        is_duplicate u (mark_as_seen u st t) w q = .ok true) ∧
      (t.toMicros + w * 3600000000 ≤ q.toMicros →
        is_duplicate u (mark_as_seen u st t) w q = .ok false)) ∧
    (∀ (u : String) (st : MState) (w : Nat) (q : PyDateTime),
      alget (st.dedup.getD []) (hash_url u) = none →
      is_duplicate u st w q = .ok false) := by
  constructor
  · intro u st w t q hv
    have hm := marked_after_mark st u t
    constructor
    · intro hq1 hq2
      have hage : diffMicros q t < hoursMicros w := by
        unfold diffMicros hoursMicros
        omega
      simp [is_duplicate, hm, fromisoformat_isoformat t hv, hage]
    · intro hq
      have hage : ¬(diffMicros q t < hoursMicros w) := by
        unfold diffMicros hoursMicros
        omega
      simp [is_duplicate, hm, fromisoformat_isoformat t hv, hage]
  · intro u st w q h
    simp [is_duplicate, h]

/-- C6 witness: marking a url at 2025-01-01 makes it a duplicate 24 hours
later and a non-duplicate 96 hours later under a 72-hour window, and an
unknown url is not a duplicate. -/
theorem dedup_window_spec_witness :
    is_duplicate urlW (mark_as_seen urlW {} markT) 72 queryIn = .ok true ∧
    is_duplicate urlW (mark_as_seen urlW {} markT) 72 queryOut = .ok false ∧
    is_duplicate urlW {} 72 queryIn = .ok false :=
  ⟨(dedup_window_spec.1 urlW {} 72 markT queryIn (by decide)).1 (by decide) (by decide),
   (dedup_window_spec.1 urlW {} 72 markT queryOut (by decide)).2 (by decide),
   dedup_window_spec.2 urlW {} 72 queryIn rfl⟩

/-- C4: starting from a state satisfying both caps, every disposition of an
accepted high-priority candidate (the moment an alert is queued) leaves the
per-topic counter at or below max_alerts_per_topic_per_day and the global sum
at or below max_alerts_per_day, because the limits are re-checked before each
enqueue and the counter is incremented after it. -/
theorem alerts_cap_invariant (topic : Topic) (settings : Settings) (now : PyDateTime)
    (cands : List Cand) :
    ∀ (st : MState) (queue : List Alert),
    (topicStateOf st topic.id).alerts_today.getD 0 ≤
        settings.max_alerts_per_topic_per_day.getD 2 →
    totalAlertsToday st ≤ settings.max_alerts_per_day.getD 5 →
    ((dispositionLoop topic settings now false cands st queue).log.all
      (fun e => decide (e.1 ≤ settings.max_alerts_per_topic_per_day.getD 2) &&
        decide (e.2 ≤ settings.max_alerts_per_day.getD 5))) = true := by
  induction cands with
  | nil => intro st queue h1 h2; rfl
  | cons c rest ih =>
    intro st queue h1 h2
    unfold dispositionLoop
    by_cases h : check_rate_limits topic st settings
    · have hb := (check_rate_limits_true_iff topic st settings).mp h
      simp only [h, if_true, Bool.false_eq_true, if_false, List.all_cons, Bool.and_eq_true,
        decide_eq_true_eq]
      refine ⟨⟨?_, ?_⟩, ?_⟩
      · rw [topicAlerts_incrementAlerts]
        omega
      · rw [totalAlerts_incrementAlerts]
        omega
      · apply ih
        · rw [topicAlerts_incrementAlerts]
          omega
        · rw [totalAlerts_incrementAlerts]
          omega
    · simp only [h, Bool.false_eq_true, if_false]
      exact ih st queue h1 h2

/-- C4 witness: with one counted alert already and one accepted candidate, the
logged counters after the enqueue are within both caps. -/
theorem alerts_cap_invariant_witness :
    ((dispositionLoop topicT1 {} now0 false [⟨{ url := some urlW }, 0, "r"⟩]
        { topics := some [(some "t1", { alerts_today := some 1 })] } []).log.all
      (fun e => decide (e.1 ≤ 2) && decide (e.2 ≤ 5))) = true :=
  alerts_cap_invariant topicT1 {} now0 [⟨{ url := some urlW }, 0, "r"⟩]
    { topics := some [(some "t1", { alerts_today := some 1 })] } [] (by decide) (by decide)

/-- C3: the alert id is a pure function of the (url, timestamp) pair; calling
queue_alert twice with identical (url, timestamp) leaves exactly one entry
with that id in a queue whose ids were pairwise distinct; and queue_alert
preserves pairwise distinctness of ids. -/
theorem queue_alert_idempotent :
    (∀ (now now2 : PyDateTime) (a b : Alert) (q q2 : List Alert),
      a.url = b.url → a.timestamp = b.timestamp →
      (queue_alert now a q).1 = (queue_alert now2 b q2).1) ∧
    (∀ (now now2 : PyDateTime) (a b : Alert) (q : List Alert),
      a.url = b.url → a.timestamp = b.timestamp →
      q.Pairwise (fun x y => x.id ≠ y.id) →
      (((queue_alert now2 b (queue_alert now a q).2).2).filter
        (fun x => decide (x.id = some (computeAlertId a)))).length = 1) ∧
    (∀ (now : PyDateTime) (a : Alert) (q : List Alert),
      q.Pairwise (fun x y => x.id ≠ y.id) →
      ((queue_alert now a q).2).Pairwise (fun x y => x.id ≠ y.id)) := by
  refine ⟨?_, ?_, ?_⟩
  · intro now now2 a b q q2 hu ht
    rw [queue_alert_fst, queue_alert_fst, computeAlertId_congr a b hu ht]
  · intro now now2 a b q hu ht hpw
    have hid : computeAlertId b = computeAlertId a := (computeAlertId_congr a b hu ht).symm
    cases hqb : q.any (fun x => decide (x.id = some (computeAlertId a))) with
    | true =>
      rw [queue_alert_snd_of_present now a q hqb]
      have hq2 : q.any (fun x => decide (x.id = some (computeAlertId b))) = true := by
        rw [hid]; exact hqb
      rw [queue_alert_snd_of_present now2 b q hq2]
      exact count_one_of_pairwise q (computeAlertId a) hpw hqb
    | false =>
      rw [queue_alert_snd_of_absent now a q hqb]
      have hq2 : (q ++
          [{ a with
              id := some (computeAlertId a)
              sent := some false
              timestamp := some (a.timestamp.getD (isoformat now)) }]).any
            (fun x => decide (x.id = some (computeAlertId b))) = true := by
        rw [hid]
        simp [List.any_append]
      rw [queue_alert_snd_of_present now2 b _ hq2]
      rw [List.filter_append, List.length_append]
      have h0 := count_zero_of_any_false q (computeAlertId a) hqb
      simp [h0]
  · intro now a q hpw
    cases hqb : q.any (fun x => decide (x.id = some (computeAlertId a))) with
    | true =>
      rw [queue_alert_snd_of_present now a q hqb]
      exact hpw
    | false =>
      rw [queue_alert_snd_of_absent now a q hqb]
      rw [List.pairwise_append]
      refine ⟨hpw, by simp, ?_⟩
      intro x hx y hy
      simp only [List.mem_singleton] at hy
      subst hy
      simp only [List.any_eq_false, decide_eq_true_eq] at hqb
      simpa using hqb x hx

/-- C3 witness: queueing the same (url, timestamp) alert twice into the empty
queue yields ids computed alike, a single entry with that id, and pairwise
distinct ids. -/
theorem queue_alert_idempotent_witness :
    (queue_alert now0 alertW []).1 = (queue_alert markT alertW []).1 ∧
    (((queue_alert markT alertW (queue_alert now0 alertW []).2).2).filter
      (fun x => decide (x.id = some (computeAlertId alertW)))).length = 1 ∧
    ((queue_alert now0 alertW []).2).Pairwise (fun x y => x.id ≠ y.id) :=
  ⟨queue_alert_idempotent.1 now0 markT alertW alertW [] [] rfl rfl,
   queue_alert_idempotent.2.1 now0 markT alertW alertW [] rfl rfl List.Pairwise.nil,
   queue_alert_idempotent.2.2 now0 alertW [] List.Pairwise.nil⟩

/-- C7: in the per-result loop, every examined non-duplicate result (a trace
entry with a false duplicate flag) is marked as seen regardless of the
priority the scorer assigns, and whenever the same url occurs again later in
the same batch (with a positive window) it is classified as a duplicate. -/
theorem batch_marking_spec (scoreFn : SearchResult → String × Int × String) (hours : Nat)
    (now : PyDateTime) (results : List SearchResult) (st : MState)
    (hv : now.Valid) (hh : 1 ≤ hours) :
    (∀ u, (u, false) ∈ (processResults scoreFn hours now results st).trace →
      alget ((processResults scoreFn hours now results st).st.dedup.getD [])
        (hash_url u) = some (isoformat now)) ∧
    (∀ (pre mid post : List (String × Bool)) (u : String) (d : Bool),
      (processResults scoreFn hours now results st).trace =
        pre ++ (u, false) :: mid ++ (u, d) :: post → d = true) :=
  ⟨fun u h => processResults_trace_marked scoreFn hours now results st u h,
   fun pre mid post u d heq =>
     processResults_trace_split scoreFn hours now hv hh results st pre mid post u d heq⟩

set_option maxRecDepth 1000000 in
/-- C7 witness: a batch holding the same url twice under a low-scoring
function marks it on first sight, and the trace records the second occurrence
as a duplicate. -/
theorem batch_marking_spec_witness :
    alget ((processResults scoreLow 72 now0 [rW, rW] {}).st.dedup.getD [])
        (hash_url urlW) = some (isoformat now0) ∧
    (processResults scoreLow 72 now0 [rW, rW] {}).trace = [(urlW, false), (urlW, true)] :=
  ⟨(batch_marking_spec scoreLow 72 now0 [rW, rW] {} (by decide) (by decide)).1 urlW
     (by decide),
   by decide⟩

/-- C8 counterexample: an alert whose parseable timestamp equals the cutoff
exactly (so it is not older than now minus max_age_hours) is nevertheless
removed by clear_old_alerts, refuting the removes-exactly-the-older claim at
the boundary. -/
theorem clear_old_alerts_boundary_counterexample :
    fromisoformat (alertBoundary.timestamp.getD "") = some ⟨2025, 1, 1, 0, 0, 0, 0⟩ ∧
    ((⟨2025, 1, 1, 0, 0, 0, 0⟩ : PyDateTime).toMicros : Int) =
      (now8.toMicros : Int) - hoursMicros 168 ∧
    clear_old_alerts now8 168 [alertBoundary] = [] := by
  refine ⟨by decide, by decide, by decide⟩

/-- C8 amended: clear_old_alerts removes exactly those queue entries whose
parseable timestamp is at or before now minus max_age_hours (not strictly
newer), regardless of sent status, and keeps every entry whose timestamp is
missing or unparseable; on a queue with one alert 200 hours old and one 10
hours old, clear_old_alerts(168) removes only the 200-hour-old entry. -/
theorem clear_old_alerts_spec :
    (∀ (now : PyDateTime) (maxAge : Nat) (queue : List Alert) (a : Alert),
      a ∈ clear_old_alerts now maxAge queue ↔
        a ∈ queue ∧
          (fromisoformat (a.timestamp.getD "") = none ∨
            ∃ ts, fromisoformat (a.timestamp.getD "") = some ts ∧
              (now.toMicros : Int) - hoursMicros maxAge < (ts.toMicros : Int))) ∧
    clear_old_alerts now8 168 [alertOld, alertNew] = [alertNew] := by
  constructor
  · intro now maxAge queue a
    unfold clear_old_alerts
    dsimp only
    rw [List.mem_filter]
    cases hp : fromisoformat (a.timestamp.getD "") <;> simp [hp]
  · decide

set_option maxRecDepth 1000000 in
/-- C2 counterexample: in a run where the first topic raises mid-pipeline (a
malformed stored timestamp hit at its second result), the exception is caught,
the second topic is still processed, and the state is still saved, but the
saved state contains the dedup-map entry the failed topic wrote for its first
result: the failed pipeline is not all-or-nothing. -/
theorem run_partial_contribution_counterexample :
    c2step.2.2 = false ∧
    c2run.2.stateDoc = some c2run.1 ∧
    alget (c2run.1.dedup.getD []) (hash_url urlA) = some (isoformat now0) ∧
    (topicStateOf c2run.1 (some "t2")).last_check = some (isoformat now0) := by
  refine ⟨by decide, by decide, by decide, by decide⟩

/-- C2 amended: an exception while processing one topic is caught at the
orchestrator boundary, every subsequent topic is still processed, and the
final state save still occurs; however the failed topic's pipeline is not
all-or-nothing: the mutations it made before the exception remain in the
state from which the rest of the run proceeds and which is saved. -/
theorem run_continues_after_failure (scoreFn : SearchResult → String × Int × String)
    (settings : Settings) (now : PyDateTime) (pre post : List (Topic × List SearchResult))
    (tf : Topic) (rs : List SearchResult) (st : MState) (w : World) :
    (monitor_topic scoreFn tf settings now rs false
        (runTopics scoreFn settings now false pre st w).1
        (runTopics scoreFn settings now false pre st w).2).2.2 = false →
    mainLoop scoreFn settings now false (pre ++ (tf, rs) :: post) st w =
      ((runTopics scoreFn settings now false post
          (monitor_topic scoreFn tf settings now rs false
            (runTopics scoreFn settings now false pre st w).1
            (runTopics scoreFn settings now false pre st w).2).1
          (monitor_topic scoreFn tf settings now rs false
            (runTopics scoreFn settings now false pre st w).1
            (runTopics scoreFn settings now false pre st w).2).2.1).1,
       { (runTopics scoreFn settings now false post
            (monitor_topic scoreFn tf settings now rs false
              (runTopics scoreFn settings now false pre st w).1
              (runTopics scoreFn settings now false pre st w).2).1
            (monitor_topic scoreFn tf settings now rs false
              (runTopics scoreFn settings now false pre st w).1
              (runTopics scoreFn settings now false pre st w).2).2.1).2 with
          stateDoc := some (runTopics scoreFn settings now false post
            (monitor_topic scoreFn tf settings now rs false
              (runTopics scoreFn settings now false pre st w).1
              (runTopics scoreFn settings now false pre st w).2).1
            (monitor_topic scoreFn tf settings now rs false
              (runTopics scoreFn settings now false pre st w).1
              (runTopics scoreFn settings now false pre st w).2).2.1).1 }) := by
  intro _hfail
  unfold mainLoop
  rw [runTopics_append]
  rfl

set_option maxRecDepth 1000000 in
/-- C2 amended witness: the concrete failing run equals the continuation from
the partially mutated state, with the save applied at the end. -/
theorem run_continues_after_failure_witness :
    mainLoop scoreLow {} now0 false ([] ++ (topicT1, [rA, rB]) :: [(topicT2, [])])
        stGarbageB {} =
      (c2tail.1, { c2tail.2 with stateDoc := some c2tail.1 }) :=
  run_continues_after_failure scoreLow {} now0 [] [(topicT2, [])] topicT1 [rA, rB]
    stGarbageB {} (by decide)

/-- C9: a dry-run leaves every persisted document unchanged: the state
document is not saved, no finding is appended, and no alert is queued. -/
theorem dry_run_writes_nothing (scoreFn : SearchResult → String × Int × String)
    (settings : Settings) (now : PyDateTime) (topics : List (Topic × List SearchResult))
    (st : MState) (w : World) :
    (mainLoop scoreFn settings now true topics st w).2 = w := by
  unfold mainLoop
  simp [runTopics_dryRun_world]

end TopicMonitor
